import Mathlib

/-!
Verification of the real-time session coordination subsystem of a telehealth
backend: the video-session state machine (`videoController`), the chat message
path (`chatController` and the `Chat` schema hook), and the socket presence /
room relay layer (`server.js`).  Persistent stores are modelled as lists of
records; each controller is a pure function from a request and a store state
to an HTTP-level result together with the successor store state.  External
I/O failure (the appointment-store update on session end) is modelled by an
explicit boolean parameter.
-/

namespace Bolt28

/-- User roles, from the `User` schema / `req.user.role`. -/
inductive Role where
  | patient
  | therapist
  | admin
deriving DecidableEq, Repr

/-- Appointment statuses, from the `Appointment` schema enum. -/
inductive ApptStatus where
  | pendingConfirmation
  | confirmed
  | completed
  | cancelled
  | noShow
deriving DecidableEq, Repr

/-- Appointment session types, from the `Appointment` schema enum. -/
inductive SessType where
  | video
  | phone
  | inPerson
deriving DecidableEq, Repr

/-- Video session statuses, from the `VideoSession` schema enum. -/
inductive SessionStatus where
  | waiting
  | active
  | ended
  | cancelled
deriving DecidableEq, Repr

/-- HTTP-level error results of the controllers: 404, 403, 400 and the
catch-all 500 produced by a thrown exception. -/
inductive ApiError where
  | notFound (msg : String)
  | forbidden (msg : String)
  | badRequest (msg : String)
  | serverError
deriving DecidableEq, Repr

/-- The authenticated requester (`req.user`), injected by the auth middleware. -/
structure UserRec where
  id : String
  role : Role
deriving DecidableEq, Repr

/-- An appointment record (the fields the coordination subsystem reads). -/
structure Appointment where
  id : String
  patientId : String
  therapistId : String
  status : ApptStatus
  sessionType : SessType
deriving DecidableEq, Repr

/-- A participant entry of a video session. -/
structure Participant where
  userId : String
  joinedAt : Nat
  leftAt : Option Nat := none
deriving DecidableEq, Repr

/-- The `sessionNotes` subdocument of a video session. -/
structure SessionNotes where
  therapistNotes : Option String := none
  patientFeedback : Option String := none
deriving DecidableEq, Repr

/-- A persisted `VideoSession` document.  Times are in milliseconds
(JavaScript `Date` values); `duration` is in whole seconds. -/
structure VideoSession where
  id : String
  patientId : String
  therapistId : String
  appointmentId : String
  roomId : String
  status : SessionStatus := .waiting
  startTime : Option Nat := none
  endTime : Option Nat := none
  duration : Option Nat := none
  participants : List Participant := []
  sessionNotes : SessionNotes := {}
deriving DecidableEq, Repr

/-- The persistent state the video controller reads and writes. -/
structure VideoSt where
  sessions : List VideoSession
  appointments : List Appointment
deriving DecidableEq, Repr

/-- Model of the findById lookup over the modelled user store. -/
def findUser (users : List UserRec) (uid : String) : Option UserRec :=
  users.find? (fun u => u.id == uid)

/-- Model of the findById lookup over the modelled appointment store. -/
def findAppointment (appts : List Appointment) (aid : String) : Option Appointment :=
  appts.find? (fun a => a.id == aid)

/-- Model of the findOne-by-roomId query on video sessions. -/
def findSessionByRoom (l : List VideoSession) (roomId : String) : Option VideoSession :=
  l.find? (fun s => s.roomId == roomId)

/-- Model of the findOne-by-appointmentId query on video sessions. -/
def findSessionByAppointment (l : List VideoSession) (aid : String) : Option VideoSession :=
  l.find? (fun s => s.appointmentId == aid)

/-- Model of saving an already-persisted session document: replace the
document with the same Mongo id. -/
def saveSession (vs : VideoSession) (l : List VideoSession) : List VideoSession :=
  l.map (fun s => if s.id == vs.id then vs else s)

/-- Model of the findByIdAndUpdate call that marks an appointment completed. -/
def markAppointmentCompleted (aid : String) (l : List Appointment) : List Appointment :=
  l.map (fun a => if a.id == aid then { a with status := .completed } else a)

/-- The `sessionNotes` block of `updateSessionStatus`: a truthy `sessionNotes`
body field is written to `therapistNotes` for a therapist requester and to
`patientFeedback` for anyone else. -/
def applySessionNotes (role : Role) (notes : Option String) (vs : VideoSession) : VideoSession :=
  match notes with
  | none => vs
  | some n =>
    if n == "" then vs
    else if role == .therapist then
      { vs with sessionNotes := { vs.sessionNotes with therapistNotes := some n } }
    else
      { vs with sessionNotes := { vs.sessionNotes with patientFeedback := some n } }

/-- Model of `updateSessionStatus` (videoController).  `now` is the current time in
milliseconds; `apptUpdateFails` models the external appointment-store update
throwing, in which case the surrounding `catch` returns a 500 and nothing is
persisted (the `save()` of the session never runs). -/
def updateSessionStatus (now : Nat) (apptUpdateFails : Bool) (reqUser : UserRec)
    (roomId : String) (status : SessionStatus) (notes : Option String)
    (st : VideoSt) : Except ApiError VideoSession × VideoSt :=
  match findSessionByRoom st.sessions roomId with
  | none => (.error (.notFound "Video session not found"), st)
  | some vs =>
    let isPatient := vs.patientId == reqUser.id
    let isTherapist := vs.therapistId == reqUser.id
    if !isPatient && !isTherapist then (.error (.forbidden "Access denied"), st)
    else
      let vs1 := { vs with status := status }
      let vs2 := if status == .active && vs1.startTime.isNone then
          { vs1 with startTime := some now } else vs1
      if status == .ended then
        let vs3 := { vs2 with endTime := some now }
        let vs4 := match vs3.startTime with
          | some t => { vs3 with duration := some ((now - t) / 1000) }
          | none => vs3
        if apptUpdateFails then (.error .serverError, st)
        else
          let vs5 := applySessionNotes reqUser.role notes vs4
          (.ok vs5,
            { sessions := saveSession vs5 st.sessions,
              appointments := markAppointmentCompleted vs5.appointmentId st.appointments })
      else
        let vs5 := applySessionNotes reqUser.role notes vs2
        (.ok vs5, { st with sessions := saveSession vs5 st.sessions })

/-- The summary a create/join call responds with. -/
structure SessionSummary where
  roomId : String
  status : SessionStatus
  participants : Nat
deriving DecidableEq, Repr

/-- Model of `createVideoSession` (videoController).  `freshId` and `freshRoomId` model
the Mongo `_id` and the `room_...` identifier the pre-save hook generates for
a newly created document. -/
def createVideoSession (now : Nat) (freshId freshRoomId : String) (reqUser : UserRec)
    (appointmentId : String) (st : VideoSt) : Except ApiError SessionSummary × VideoSt :=
  if appointmentId == "" then (.error (.badRequest "Appointment ID is required"), st)
  else match findAppointment st.appointments appointmentId with
  | none => (.error (.notFound "Appointment not found"), st)
  | some appt =>
    let isPatient := appt.patientId == reqUser.id
    let isTherapist := appt.therapistId == reqUser.id
    if !isPatient && !isTherapist then (.error (.forbidden "Access denied"), st)
    else if !(appt.status == .confirmed) then
      (.error (.badRequest "Appointment must be confirmed to start video session"), st)
    else
      let found := findSessionByAppointment st.sessions appointmentId
      let vs := match found with
        | some v => v
        | none =>
          { id := freshId, patientId := appt.patientId, therapistId := appt.therapistId,
            appointmentId := appointmentId, roomId := freshRoomId }
      let sessions1 := match found with
        | some _ => st.sessions
        | none => vs :: st.sessions
      if vs.participants.any (fun p => p.userId == reqUser.id) then
        (.ok ⟨vs.roomId, vs.status, vs.participants.length⟩, { st with sessions := sessions1 })
      else
        let vs' := { vs with
          participants := vs.participants ++ [{ userId := reqUser.id, joinedAt := now }] }
        (.ok ⟨vs'.roomId, vs'.status, vs'.participants.length⟩,
          { st with sessions := saveSession vs' sessions1 })

/-- In-place update of the `i`-th element of a list
(`participants[participantIndex].joinedAt = ...`). -/
def updateAt (i : Nat) (f : Participant → Participant) : List Participant → List Participant
  | [] => []
  | p :: ps =>
    match i with
    | 0 => f p :: ps
    | j + 1 => p :: updateAt j f ps

/-- Model of `joinVideoSession` (videoController): refresh an existing participant
entry's `joinedAt`, or append a new entry. -/
def joinVideoSession (now : Nat) (reqUser : UserRec) (roomId : String) (st : VideoSt) :
    Except ApiError SessionSummary × VideoSt :=
  match findSessionByRoom st.sessions roomId with
  | none => (.error (.notFound "Video session not found"), st)
  | some vs =>
    if !(vs.patientId == reqUser.id) && !(vs.therapistId == reqUser.id) then
      (.error (.forbidden "Access denied"), st)
    else
      let parts :=
        match vs.participants.findIdx? (fun p => p.userId == reqUser.id) with
        | some i => updateAt i (fun p => { p with joinedAt := now }) vs.participants
        | none => vs.participants ++ [{ userId := reqUser.id, joinedAt := now }]
      let vs' := { vs with participants := parts }
      (.ok ⟨vs'.roomId, vs'.status, vs'.participants.length⟩,
        { st with sessions := saveSession vs' st.sessions })

/-- Lexicographic comparison of character sequences by code point, as the
JavaScript default string comparison performs it. -/
def charListLe : List Char → List Char → Bool
  | [], _ => true
  | _ :: _, [] => false
  | c :: cs, d :: ds =>
    if c.toNat < d.toNat then true
    else if d.toNat < c.toNat then false
    else charListLe cs ds

/-- String comparison used by `Array.prototype.sort` on strings. -/
def strLe (a b : String) : Bool :=
  charListLe a.data b.data

/-- Model of the two-element JavaScript default sort on the identity pair. -/
def sortIds (a b : String) : List String :=
  if strLe a b then [a, b] else [b, a]

/-- Model of the JavaScript underscore join on a list of strings. -/
def joinUnderscore : List String → String
  | [] => ""
  | [s] => s
  | s :: rest => s ++ "_" ++ joinUnderscore rest

/-- The `Chat` schema pre-save hook: the conversation id is the
lexicographically sorted, underscore-joined pair of participant ids. -/
def deriveConversationId (a b : String) : String :=
  joinUnderscore (sortIds a b)

/-- A persisted `Chat` document. -/
structure ChatMsg where
  id : String
  senderId : String
  receiverId : String
  message : String
  messageType : String := "text"
  isRead : Bool := false
  readAt : Option Nat := none
  createdAt : Nat
  conversationId : String
deriving DecidableEq, Repr

/-- The persistent state the chat controller reads and writes. -/
structure ChatSt where
  users : List UserRec
  appointments : List Appointment
  chats : List ChatMsg
deriving DecidableEq, Repr

/-- Model of `checkTherapeuticRelationship` (chatController): admins may message
anyone; a patient/therapist pair qualifies when they share at least one
appointment (any status). -/
def checkTherapeuticRelationship (users : List UserRec) (appts : List Appointment)
    (id1 id2 : String) : Bool :=
  match findUser users id1, findUser users id2 with
  | some u1, some u2 =>
    if u1.role == .admin || u2.role == .admin then true
    else if (u1.role == .patient && u2.role == .therapist) ||
            (u1.role == .therapist && u2.role == .patient) then
      appts.any (fun a =>
        (a.patientId == id1 && a.therapistId == id2) ||
        (a.patientId == id2 && a.therapistId == id1))
    else false
  | _, _ => false

/-- Model of `sendMessage` (chatController): validate, check the relationship, persist
the message with the derived conversation id.  Presence of the receiver is
never consulted. -/
def sendMessage (now : Nat) (freshId : String) (reqUser : UserRec)
    (receiverId message messageType : String) (cst : ChatSt) :
    Except ApiError ChatMsg × ChatSt :=
  if receiverId == "" || message == "" then
    (.error (.badRequest "Please provide receiver ID and message"), cst)
  else if message.length > 1000 then
    (.error (.badRequest "Message too long (max 1000 characters)"), cst)
  else match findUser cst.users receiverId with
  | none => (.error (.notFound "Receiver not found"), cst)
  | some _ =>
    if !(checkTherapeuticRelationship cst.users cst.appointments reqUser.id receiverId)
        && !(reqUser.role == .admin) then
      (.error (.forbidden "You can only message your assigned therapist/patients"), cst)
    else
      let msg : ChatMsg :=
        { id := freshId, senderId := reqUser.id, receiverId := receiverId,
          message := message, messageType := messageType, createdAt := now,
          conversationId := deriveConversationId reqUser.id receiverId }
      (.ok msg, { cst with chats := cst.chats ++ [msg] })

/-- Insertion step for sorting messages by `createdAt` descending. -/
def insertByCreatedDesc (m : ChatMsg) : List ChatMsg → List ChatMsg
  | [] => [m]
  | x :: xs =>
    if x.createdAt ≤ m.createdAt then m :: x :: xs else x :: insertByCreatedDesc m xs

/-- Model of the sort by `createdAt` descending on a message query result. -/
def sortByCreatedDesc : List ChatMsg → List ChatMsg
  | [] => []
  | m :: ms => insertByCreatedDesc m (sortByCreatedDesc ms)

/-- Model of the updateMany call shared by `getConversation` and `markAsRead`:
set `isRead` and `readAt` on the readers unread messages of the
conversation. -/
def markConversationRead (now : Nat) (cid readerId : String)
    (chats : List ChatMsg) : List ChatMsg :=
  chats.map (fun m =>
    if m.conversationId == cid && m.receiverId == readerId && !m.isRead then
      { m with isRead := true, readAt := some now }
    else m)

/-- Model of `getConversation` (chatController): fetch the newest `lim` messages of the
conversation (returned oldest first), then mark the requester's unread
messages in it as read.  The returned documents are the pre-update
snapshots. -/
def getConversation (now : Nat) (reqUser : UserRec) (userId : String) (lim : Nat)
    (cst : ChatSt) : Except ApiError (List ChatMsg) × ChatSt :=
  if !(checkTherapeuticRelationship cst.users cst.appointments reqUser.id userId)
      && !(reqUser.role == .admin) then
    (.error (.forbidden "Access denied"), cst)
  else
    let cid := deriveConversationId reqUser.id userId
    let msgs := (sortByCreatedDesc (cst.chats.filter (fun m => m.conversationId == cid))).take lim
    (.ok msgs.reverse, { cst with chats := markConversationRead now cid reqUser.id cst.chats })

/-- Model of `markAsRead` (chatController): unconditional update for the
requester's unread messages of the given conversation. -/
def markAsRead (now : Nat) (reqUser : UserRec) (conversationId : String)
    (cst : ChatSt) : Except ApiError Unit × ChatSt :=
  (.ok (), { cst with chats := markConversationRead now conversationId reqUser.id cst.chats })

/-- JavaScript `Map.prototype.set`: replace the value of an existing key,
otherwise append the new binding. -/
def mapSet {α : Type} (m : List (String × α)) (k : String) (v : α) : List (String × α) :=
  if m.any (fun p => p.1 == k) then
    m.map (fun p => if p.1 == k then (k, v) else p)
  else m ++ [(k, v)]

/-- JavaScript `Map.prototype.get` (as an `Option`). -/
def mapGet {α : Type} (m : List (String × α)) (k : String) : Option α :=
  (m.find? (fun p => p.1 == k)).map (fun p => p.2)

/-- The `activeUsers.set(decoded.userId, socket.id)` step of the socket
`authenticate` handler. -/
def registerConnection (activeUsers : List (String × String)) (userId socketId : String) :
    List (String × String) :=
  mapSet activeUsers userId socketId

/-- The socket `authenticate` handler: on a valid token the socket gets the
decoded user id and the presence map binds that id to this socket; on an
invalid token nothing changes (an `auth_error` is emitted).  Returns the
socket's `userId` field and the new presence map. -/
def handleAuthenticate (socketId : String) (sockUserId : Option String)
    (tokenValid : Bool) (tokenUserId : String)
    (activeUsers : List (String × String)) :
    Option String × List (String × String) :=
  if tokenValid then (some tokenUserId, registerConnection activeUsers tokenUserId socketId)
  else (sockUserId, activeUsers)

/-- Events a socket room handler emits to individual sockets. -/
inductive SockEvent where
  | userJoined (userId : Option String)
  | userLeft (userId : Option String)
  | videoSignal (signal : String) (senderId : Option String)
deriving DecidableEq, Repr

/-- The current member sockets of a room (empty when the room does not exist). -/
def roomMembers (rooms : List (String × List String)) (roomId : String) : List String :=
  (mapGet rooms roomId).getD []

/-- Model of the socket room join: membership is idempotent per socket. -/
def joinRoom (rooms : List (String × List String)) (roomId socketId : String) :
    List (String × List String) :=
  let cur := roomMembers rooms roomId
  let cur' := if cur.contains socketId then cur else cur ++ [socketId]
  mapSet rooms roomId cur'

/-- The `join_video_session` handler: join the room, then emit `user_joined`
carrying `socket.userId` to every other member.  No authentication check. -/
def handleJoinVideoSession (socketId : String) (sockUserId : Option String)
    (roomId : String) (rooms : List (String × List String)) :
    List (String × List String) × List (String × SockEvent) :=
  let rooms' := joinRoom rooms roomId socketId
  (rooms',
    ((roomMembers rooms' roomId).filter (fun m => !(m == socketId))).map
      (fun m => (m, SockEvent.userJoined sockUserId)))

/-- The `video_signal` handler: relay the signal to every room member except
the sender, with `from := socket.userId`.  No authentication check. -/
def handleVideoSignal (socketId : String) (sockUserId : Option String)
    (roomId signal : String) (rooms : List (String × List String)) :
    List (String × SockEvent) :=
  ((roomMembers rooms roomId).filter (fun m => !(m == socketId))).map
    (fun m => (m, SockEvent.videoSignal signal sockUserId))


/-! ### Helper lemmas -/

theorem charListLe_total : ∀ l1 l2 : List Char, charListLe l1 l2 = true ∨ charListLe l2 l1 = true
  | [], _ => Or.inl rfl
  | _ :: _, [] => Or.inr rfl
  | c :: cs, d :: ds => by
    by_cases h1 : c.toNat < d.toNat
    · exact Or.inl (by simp [charListLe, h1])
    · by_cases h2 : d.toNat < c.toNat
      · exact Or.inr (by simp [charListLe, h2])
      · rcases charListLe_total cs ds with h | h
        · exact Or.inl (by simp [charListLe, h1, h2, h])
        · exact Or.inr (by simp [charListLe, h1, h2, h])

theorem charListLe_antisymm : ∀ l1 l2 : List Char,
    charListLe l1 l2 = true → charListLe l2 l1 = true → l1 = l2
  | [], [], _, _ => rfl
  | [], _ :: _, _, h2 => by simp [charListLe] at h2
  | _ :: _, [], h1, _ => by simp [charListLe] at h1
  | c :: cs, d :: ds, h1, h2 => by
    by_cases hlt : c.toNat < d.toNat
    · simp [charListLe, hlt, Nat.lt_asymm hlt] at h2
    · by_cases hgt : d.toNat < c.toNat
      · simp [charListLe, hlt, hgt] at h1
      · have hcd : c = d := Char.ext (UInt32.ext (Nat.le_antisymm (Nat.le_of_not_lt hgt) (Nat.le_of_not_lt hlt)))
        simp only [charListLe, hlt, hgt, if_false] at h1 h2
        exact by rw [hcd, charListLe_antisymm cs ds h1 h2]

theorem strLe_total (a b : String) : strLe a b = true ∨ strLe b a = true :=
  charListLe_total a.data b.data

theorem strLe_antisymm (a b : String) (h1 : strLe a b = true) (h2 : strLe b a = true) : a = b := by
  have : a.data = b.data := charListLe_antisymm _ _ h1 h2
  cases a; cases b; simp_all

theorem deriveConversationId_comm (a b : String) :
    deriveConversationId a b = deriveConversationId b a := by
  unfold deriveConversationId sortIds
  by_cases hab : strLe a b = true
  · by_cases hba : strLe b a = true
    · rw [strLe_antisymm a b hab hba]
    · simp [hab, hba]
  · rcases strLe_total a b with h | h
    · exact absurd h hab
    · simp [hab, h]

theorem applySessionNotes_status (r : Role) (n : Option String) (vs : VideoSession) :
    (applySessionNotes r n vs).status = vs.status := by
  unfold applySessionNotes
  cases n with
  | none => rfl
  | some s =>
    by_cases h1 : s == ""
    · simp [h1]
    · by_cases h2 : r == Role.therapist <;> simp [h1, h2]

theorem find?_saveSession (p : VideoSession → Bool) (s0 s1 : VideoSession)
    (hid : s0.id = s1.id) (h1 : p s1 = true) :
    ∀ l : List VideoSession, l.find? p = some s0 →
      (saveSession s1 l).find? p = some s1 := by
  intro l
  induction l with
  | nil => intro h; simp at h
  | cons a as ih =>
    intro hfind
    by_cases hpa : p a = true
    · rw [List.find?_cons_of_pos _ hpa] at hfind
      injection hfind with ha
      subst ha
      have hhead : (if (a.id == s1.id) = true then s1 else a) = s1 := by simp [hid]
      simp only [saveSession, List.map_cons, hhead]
      exact List.find?_cons_of_pos _ h1
    · rw [List.find?_cons_of_neg _ (by simp [hpa])] at hfind
      by_cases hida : (a.id == s1.id) = true
      · have hhead : (if (a.id == s1.id) = true then s1 else a) = s1 := by simp [hida]
        simp only [saveSession, List.map_cons, hhead]
        exact List.find?_cons_of_pos _ h1
      · have hhead : (if (a.id == s1.id) = true then s1 else a) = a := by simp [hida]
        simp only [saveSession, List.map_cons, hhead]
        rw [List.find?_cons_of_neg _ (by simp [hpa])]
        exact ih hfind


theorem updateAt_length (f : Participant → Participant) :
    ∀ (i : Nat) (l : List Participant), (updateAt i f l).length = l.length
  | _, [] => by simp [updateAt]
  | 0, _ :: _ => rfl
  | j + 1, _ :: ps => by simp [updateAt, updateAt_length f j ps]

theorem updateAt_map {β : Type} (f : Participant → Participant) (g : Participant → β)
    (hg : ∀ p, g (f p) = g p) :
    ∀ (i : Nat) (l : List Participant), (updateAt i f l).map g = l.map g
  | _, [] => by simp [updateAt]
  | 0, p :: _ => by simp [updateAt, hg p]
  | j + 1, _ :: ps => by simp [updateAt, updateAt_map f g hg j ps]

theorem updateAt_getElem? (f : Participant → Participant) :
    ∀ (i : Nat) (l : List Participant), (updateAt i f l)[i]? = l[i]?.map f
  | _, [] => by simp [updateAt]
  | 0, p :: _ => by simp [updateAt]
  | j + 1, _ :: ps => by simp [updateAt, updateAt_getElem? f j ps]

theorem find?_keyReplace {α : Type} (k : String) (v : α) :
    ∀ m : List (String × α), m.any (fun p => p.1 == k) = true →
      (m.map (fun p => if p.1 == k then (k, v) else p)).find? (fun p => p.1 == k) = some (k, v)
  | [], h => by simp at h
  | a :: as, h => by
    by_cases ha : (a.1 == k) = true
    · have hhead : (if (a.1 == k) = true then (k, v) else a) = (k, v) := by simp [ha]
      simp only [List.map_cons, hhead]
      exact List.find?_cons_of_pos _ (by simp)
    · have hhead : (if (a.1 == k) = true then (k, v) else a) = a := by simp [ha]
      simp only [List.map_cons, hhead]
      rw [List.find?_cons_of_neg _ (by simp [ha])]
      have h' : as.any (fun p => p.1 == k) = true := by
        simp only [List.any_cons, ha, Bool.false_or] at h
        exact h
      exact find?_keyReplace k v as h'

theorem find?_appendNew {α : Type} (k : String) (v : α) :
    ∀ m : List (String × α), m.any (fun p => p.1 == k) = false →
      (m ++ [(k, v)]).find? (fun p => p.1 == k) = some (k, v)
  | [], _ => by simp
  | a :: as, h => by
    have ha : (a.1 == k) = false := by
      by_contra hc
      simp only [List.any_cons, Bool.or_eq_false_iff] at h
      exact hc h.1
    simp only [List.cons_append]
    rw [List.find?_cons_of_neg _ (by simp [ha])]
    exact find?_appendNew k v as (by
      simp only [List.any_cons, Bool.or_eq_false_iff] at h
      exact h.2)

theorem mapGet_mapSet {α : Type} (m : List (String × α)) (k : String) (v : α) :
    mapGet (mapSet m k v) k = some v := by
  unfold mapGet mapSet
  by_cases h : m.any (fun p => p.1 == k) = true
  · rw [if_pos h, find?_keyReplace k v m h]
    rfl
  · rw [if_neg h, find?_appendNew k v m (Bool.eq_false_iff.mpr h)]
    rfl

theorem mapSet_value_of_key {α : Type} (m : List (String × α)) (k : String) (v : α) :
    ∀ p ∈ mapSet m k v, p.1 = k → p.2 = v := by
  intro p hp hk
  unfold mapSet at hp
  by_cases h : m.any (fun q => q.1 == k) = true
  · rw [if_pos h] at hp
    rcases List.mem_map.mp hp with ⟨q, _, hqe⟩
    by_cases hqk : (q.1 == k) = true
    · rw [if_pos hqk] at hqe
      rw [← hqe]
    · rw [if_neg hqk] at hqe
      subst hqe
      exact absurd (by simp [hk]) hqk
  · rw [if_neg h] at hp
    rcases List.mem_append.mp hp with hin | hin
    · exact absurd (List.any_eq_true.mpr ⟨p, hin, by simp [hk]⟩) h
    · simp only [List.mem_singleton] at hin
      rw [hin]


/-! ### C1: transitions out of a terminal session status -/

/-- C1 counterexample: `updateSessionStatus` performs no terminal-state check.
On a session whose status is `ended`, a status update to `waiting` by the
session's patient succeeds (no `InvalidTransition`-style error) and the
persisted status changes, contradicting the claim that any transition attempt
out of `ended`/`cancelled` fails and leaves the session unchanged. -/
theorem updateSessionStatus_terminal_accepted_cex :
    updateSessionStatus 1000 false ⟨"p1", Role.patient⟩ "r1" SessionStatus.waiting none
      ⟨[{ id := "s1", patientId := "p1", therapistId := "t1", appointmentId := "a1",
          roomId := "r1", status := SessionStatus.ended }],
        [⟨"a1", "p1", "t1", ApptStatus.confirmed, SessType.video⟩]⟩ =
    (Except.ok
        { id := "s1", patientId := "p1", therapistId := "t1", appointmentId := "a1",
          roomId := "r1", status := SessionStatus.waiting },
      ⟨[{ id := "s1", patientId := "p1", therapistId := "t1", appointmentId := "a1",
          roomId := "r1", status := SessionStatus.waiting }],
        [⟨"a1", "p1", "t1", ApptStatus.confirmed, SessType.video⟩]⟩) := by
  rfl

/-- C1 (amended): `updateSessionStatus` on a session in a terminal state
(`ended` or `cancelled`) does not fail: for an authorized participant (and a
healthy appointment store) the call succeeds and simply overwrites the
session's status with the requested value. -/
theorem updateSessionStatus_overwrites_terminal (now : Nat) (reqUser : UserRec)
    (roomId : String) (status : SessionStatus) (notes : Option String)
    (st : VideoSt) (vs : VideoSession)
    (hfind : findSessionByRoom st.sessions roomId = some vs)
    (_hterm : vs.status = SessionStatus.ended ∨ vs.status = SessionStatus.cancelled)
    (hauth : reqUser.id = vs.patientId ∨ reqUser.id = vs.therapistId) :
    ∃ vs', (updateSessionStatus now false reqUser roomId status notes st).1 = Except.ok vs'
      ∧ vs'.status = status := by
  have hperm : (!(vs.patientId == reqUser.id) && !(vs.therapistId == reqUser.id)) = false := by
    rcases hauth with h | h <;> simp [h]
  by_cases hs : status = SessionStatus.ended
  · subst hs
    cases hst : vs.startTime with
    | none =>
      refine ⟨applySessionNotes reqUser.role notes
        { vs with status := SessionStatus.ended, endTime := some now }, ?_, ?_⟩
      · simp [updateSessionStatus, hfind, hperm, hst]
      · simp [applySessionNotes_status]
    | some t =>
      refine ⟨applySessionNotes reqUser.role notes
        { vs with
          status := SessionStatus.ended, endTime := some now,
          duration := some ((now - t) / 1000) }, ?_, ?_⟩
      · simp [updateSessionStatus, hfind, hperm, hst]
      · simp [applySessionNotes_status]
  · have hs' : (status == SessionStatus.ended) = false := by simp [hs]
    by_cases hc : (status == SessionStatus.active && vs.startTime.isNone) = true
    · refine ⟨applySessionNotes reqUser.role notes
        { vs with status := status, startTime := some now }, ?_, ?_⟩
      · simp [updateSessionStatus, hfind, hperm, hs', hc]
      · simp [applySessionNotes_status]
    · refine ⟨applySessionNotes reqUser.role notes { vs with status := status }, ?_, ?_⟩
      · simp [updateSessionStatus, hfind, hperm, hs', hc]
      · simp [applySessionNotes_status]

/-- C1 witness: the amended theorem applied to a concrete ended session. -/
theorem updateSessionStatus_overwrites_terminal_w :
    ∃ vs', (updateSessionStatus 1000 false ⟨"p1", Role.patient⟩ "r1" SessionStatus.waiting none
      ⟨[{ id := "s1", patientId := "p1", therapistId := "t1", appointmentId := "a1",
          roomId := "r1", status := SessionStatus.ended }],
        [⟨"a1", "p1", "t1", ApptStatus.confirmed, SessType.video⟩]⟩).1 = Except.ok vs'
      ∧ vs'.status = SessionStatus.waiting :=
  updateSessionStatus_overwrites_terminal 1000 ⟨"p1", Role.patient⟩ "r1"
    SessionStatus.waiting none _ _ (by rfl) (Or.inl rfl) (Or.inl rfl)

/-! ### C2: session end when the external appointment update fails -/

/-- C2 counterexample: an authorized participant ends an `active` session while
the external appointment update fails; the whole call returns the generic
500 error and the state — in particular the session's status — is completely
unchanged: the `ended` transition does NOT commit. -/
theorem updateSessionStatus_extfail_no_commit_cex :
    updateSessionStatus 5000 true ⟨"p1", Role.patient⟩ "r1" SessionStatus.ended none
      ⟨[{ id := "s1", patientId := "p1", therapistId := "t1", appointmentId := "a1",
          roomId := "r1", status := SessionStatus.active, startTime := some 0 }],
        [⟨"a1", "p1", "t1", ApptStatus.confirmed, SessType.video⟩]⟩ =
    (Except.error ApiError.serverError,
      ⟨[{ id := "s1", patientId := "p1", therapistId := "t1", appointmentId := "a1",
          roomId := "r1", status := SessionStatus.active, startTime := some 0 }],
        [⟨"a1", "p1", "t1", ApptStatus.confirmed, SessType.video⟩]⟩) := by
  rfl

/-- C2 (amended): the appointment update runs before the session document is
saved, inside the same try/catch; if it fails, `updateSessionStatus` aborts
with a server error and neither the session store nor the appointment store
changes — the `ended` transition is not committed. -/
theorem updateSessionStatus_extfail_aborts (now : Nat) (reqUser : UserRec)
    (roomId : String) (notes : Option String) (st : VideoSt) (vs : VideoSession)
    (hfind : findSessionByRoom st.sessions roomId = some vs)
    (hauth : reqUser.id = vs.patientId ∨ reqUser.id = vs.therapistId) :
    updateSessionStatus now true reqUser roomId SessionStatus.ended notes st =
      (Except.error ApiError.serverError, st) := by
  have hperm : (!(vs.patientId == reqUser.id) && !(vs.therapistId == reqUser.id)) = false := by
    rcases hauth with h | h <;> simp [h]
  cases hst : vs.startTime <;> simp [updateSessionStatus, hfind, hperm, hst]

/-- C2 witness: the amended theorem applied at a concrete active session. -/
theorem updateSessionStatus_extfail_aborts_w :
    updateSessionStatus 5000 true ⟨"t1", Role.therapist⟩ "r1" SessionStatus.ended none
      ⟨[{ id := "s1", patientId := "p1", therapistId := "t1", appointmentId := "a1",
          roomId := "r1", status := SessionStatus.active, startTime := some 0 }],
        [⟨"a1", "p1", "t1", ApptStatus.confirmed, SessType.video⟩]⟩ =
      (Except.error ApiError.serverError,
        ⟨[{ id := "s1", patientId := "p1", therapistId := "t1", appointmentId := "a1",
            roomId := "r1", status := SessionStatus.active, startTime := some 0 }],
          [⟨"a1", "p1", "t1", ApptStatus.confirmed, SessType.video⟩]⟩) :=
  updateSessionStatus_extfail_aborts 5000 ⟨"t1", Role.therapist⟩ "r1" none _ _
    (by rfl) (Or.inr rfl)


/-! ### C3: preconditions of video-session creation -/

/-- C3 counterexample: `createVideoSession` never inspects the appointment's
session type.  For a `confirmed` appointment of type `phone` the call
succeeds and creates a session, contradicting the claim that creation fails
unless the session type is `video`. -/
theorem createVideoSession_sessiontype_unchecked_cex :
    createVideoSession 7 "s1" "r1" ⟨"p1", Role.patient⟩ "a1"
      ⟨[], [⟨"a1", "p1", "t1", ApptStatus.confirmed, SessType.phone⟩]⟩ =
    (Except.ok ⟨"r1", SessionStatus.waiting, 1⟩,
      ⟨[{ id := "s1", patientId := "p1", therapistId := "t1", appointmentId := "a1",
          roomId := "r1", participants := [{ userId := "p1", joinedAt := 7 }] }],
        [⟨"a1", "p1", "t1", ApptStatus.confirmed, SessType.phone⟩]⟩) := by
  rfl

/-- C3 (amended): for a non-empty appointment id, creation fails with a 404
when the appointment does not exist, and — for a caller who is a party to the
appointment — fails with a 400 when the appointment is not `confirmed`;
when the appointment exists and is `confirmed` the call succeeds and a
session for the appointment exists afterwards, regardless of the
appointment's session type (which is never checked). -/
theorem createVideoSession_preconditions (now : Nat) (fid frid : String) (reqUser : UserRec)
    (aid : String) (st : VideoSt) (hne : aid ≠ "") :
    (findAppointment st.appointments aid = none →
      createVideoSession now fid frid reqUser aid st =
        (Except.error (ApiError.notFound "Appointment not found"), st)) ∧
    (∀ a, findAppointment st.appointments aid = some a →
      (reqUser.id = a.patientId ∨ reqUser.id = a.therapistId) →
      ((a.status ≠ ApptStatus.confirmed →
        createVideoSession now fid frid reqUser aid st =
          (Except.error
            (ApiError.badRequest "Appointment must be confirmed to start video session"), st)) ∧
       (a.status = ApptStatus.confirmed →
        ∃ r st', createVideoSession now fid frid reqUser aid st = (Except.ok r, st') ∧
          (findSessionByAppointment st'.sessions aid).isSome = true))) := by
  have hne' : (aid == "") = false := by simp [hne]
  constructor
  · intro h
    simp [createVideoSession, hne', h]
  · intro a ha hauth
    have hperm : (!(a.patientId == reqUser.id) && !(a.therapistId == reqUser.id)) = false := by
      rcases hauth with h | h <;> simp [h]
    constructor
    · intro hnc
      have hnc' : (a.status == ApptStatus.confirmed) = false := by simp [hnc]
      simp [createVideoSession, hne', ha, hperm, hnc']
    · intro hc
      cases hfs : findSessionByAppointment st.sessions aid with
      | some vs =>
        have hfs' : st.sessions.find? (fun s => s.appointmentId == aid) = some vs := hfs
        have hp : (vs.appointmentId == aid) = true := by simpa using List.find?_some hfs'
        by_cases hany : vs.participants.any (fun p => p.userId == reqUser.id) = true
        · refine ⟨⟨vs.roomId, vs.status, vs.participants.length⟩, st, ?_, ?_⟩
          · simp [createVideoSession, hne', ha, hperm, hc, hfs, hany]
          · unfold findSessionByAppointment at hfs ⊢
            simp [hfs]
        · refine ⟨⟨vs.roomId, vs.status,
              (vs.participants ++
                [({ userId := reqUser.id, joinedAt := now } : Participant)]).length⟩,
            ⟨saveSession
                ({ vs with participants :=
                    vs.participants ++
                      [({ userId := reqUser.id, joinedAt := now } : Participant)] } :
                  VideoSession)
                st.sessions,
              st.appointments⟩, ?_, ?_⟩
          · simp [createVideoSession, hne', ha, hperm, hc, hfs, hany]
          · have hsv := find?_saveSession (fun s => s.appointmentId == aid) vs
              { vs with participants :=
                  vs.participants ++
                    [({ userId := reqUser.id, joinedAt := now } : Participant)] }
              rfl hp st.sessions hfs'
            simp [findSessionByAppointment, hsv]
      | none =>
        refine ⟨⟨frid, SessionStatus.waiting, 1⟩,
          ⟨saveSession
              ({ id := fid, patientId := a.patientId, therapistId := a.therapistId,
                 appointmentId := aid, roomId := frid,
                 participants :=
                   [({ userId := reqUser.id, joinedAt := now } : Participant)] } :
                VideoSession)
              (({ id := fid, patientId := a.patientId, therapistId := a.therapistId,
                  appointmentId := aid, roomId := frid } : VideoSession) :: st.sessions),
            st.appointments⟩, ?_, ?_⟩
        · simp [createVideoSession, hne', ha, hperm, hc, hfs]
        · simp [findSessionByAppointment, saveSession]

/-- C3 witness: the amended theorem applied at three concrete stores —
a missing appointment, an unconfirmed appointment, and a confirmed
appointment of session type `phone`. -/
theorem createVideoSession_preconditions_w :
    (createVideoSession 1 "s1" "r1" ⟨"p1", Role.patient⟩ "missing"
        ⟨[], [⟨"a1", "p1", "t1", ApptStatus.confirmed, SessType.video⟩]⟩ =
      (Except.error (ApiError.notFound "Appointment not found"),
        ⟨[], [⟨"a1", "p1", "t1", ApptStatus.confirmed, SessType.video⟩]⟩)) ∧
    (createVideoSession 1 "s1" "r1" ⟨"p1", Role.patient⟩ "a2"
        ⟨[], [⟨"a2", "p1", "t1", ApptStatus.pendingConfirmation, SessType.video⟩]⟩ =
      (Except.error
          (ApiError.badRequest "Appointment must be confirmed to start video session"),
        ⟨[], [⟨"a2", "p1", "t1", ApptStatus.pendingConfirmation, SessType.video⟩]⟩)) ∧
    (∃ r st', createVideoSession 1 "s1" "r1" ⟨"p1", Role.patient⟩ "a3"
        ⟨[], [⟨"a3", "p1", "t1", ApptStatus.confirmed, SessType.phone⟩]⟩ = (Except.ok r, st') ∧
      (findSessionByAppointment st'.sessions "a3").isSome = true) :=
  ⟨(createVideoSession_preconditions 1 "s1" "r1" ⟨"p1", Role.patient⟩ "missing" _
      (by decide)).1 (by rfl),
   ((createVideoSession_preconditions 1 "s1" "r1" ⟨"p1", Role.patient⟩ "a2" _
      (by decide)).2 _ (by rfl) (Or.inl rfl)).1 (by decide),
   ((createVideoSession_preconditions 1 "s1" "r1" ⟨"p1", Role.patient⟩ "a3" _
      (by decide)).2 _ (by rfl) (Or.inl rfl)).2 rfl⟩


theorem charListLe_refl : ∀ l : List Char, charListLe l l = true
  | [] => rfl
  | c :: cs => by simp [charListLe, charListLe_refl cs]

/-! ### C4: one presence slot per identity -/

/-- C4 counterexample: the presence registry is a plain map from user id to a
single socket id.  Registering a second connection `s2` for `u1` replaces the
first connection `s1` — the registry holds only `("u1", "s2")` and lookup
returns only `s2` — contradicting the claim that the registry keeps a set of
all live connections per identity. -/
theorem registerConnection_replaces_cex :
    registerConnection (registerConnection [] "u1" "s1") "u1" "s2" = [("u1", "s2")] ∧
    mapGet (registerConnection (registerConnection [] "u1" "s1") "u1" "s2") "u1" = some "s2" := by
  constructor <;> rfl

/-- C4 (amended): the presence registry stores at most one connection per
identity; registering a second connection overwrites the first, and lookup
afterwards yields exactly the most recently registered socket id. -/
theorem registerConnection_single_slot (m : List (String × String)) (u s1 s2 : String) :
    mapGet (registerConnection (registerConnection m u s1) u s2) u = some s2 ∧
    ∀ p ∈ registerConnection (registerConnection m u s1) u s2, p.1 = u → p.2 = s2 :=
  ⟨mapGet_mapSet _ u s2, mapSet_value_of_key _ u s2⟩

/-- C4 witness: the amended theorem at a concrete pair of registrations. -/
theorem registerConnection_single_slot_w :
    mapGet (registerConnection (registerConnection [] "u1" "s1") "u1" "s2") "u1" = some "s2" ∧
    ("u1", ("s2" : String)).2 = "s2" :=
  ⟨(registerConnection_single_slot [] "u1" "s1" "s2").1,
   (registerConnection_single_slot [] "u1" "s1" "s2").2 ("u1", "s2") (by decide) rfl⟩

/-! ### C6: symmetry of the conversation identifier -/

/-- C6: the derived conversation identifier is symmetric — for distinct
identities the sorted, underscore-joined pair is the same in either
argument order. -/
theorem deriveConversationId_symmetric (a b : String) (_h : a ≠ b) :
    deriveConversationId a b = deriveConversationId b a :=
  deriveConversationId_comm a b

/-- C6 witness: symmetry at a concrete pair of distinct identities. -/
theorem deriveConversationId_symmetric_w :
    ("pa" : String) ≠ "tb" ∧ deriveConversationId "pa" "tb" = deriveConversationId "tb" "pa" :=
  ⟨by decide, deriveConversationId_symmetric "pa" "tb" (by decide)⟩

/-! ### C7: conversation identifier for equal identities -/

/-- C7 counterexample: deriving a conversation id for two equal identities
does not fail — the pre-save hook happily produces the degenerate id
`u1_u1` instead of a `ValidationFailed` error. -/
theorem deriveConversationId_self_cex : deriveConversationId "u1" "u1" = "u1_u1" := by
  rfl

/-- C7 (amended): the conversation-id derivation is total and never fails;
for equal identities it returns the degenerate identifier `a_a`.  (The send
path blocks self-messaging for non-admins only indirectly, via the
relationship check, with a 403.) -/
theorem deriveConversationId_self (a : String) :
    deriveConversationId a a = a ++ "_" ++ a := by
  have h : strLe a a = true := charListLe_refl a.data
  simp [deriveConversationId, sortIds, h, joinUnderscore]


theorem mem_joinRoom (rooms : List (String × List String)) (roomId socketId : String) :
    socketId ∈ roomMembers (joinRoom rooms roomId socketId) roomId := by
  have h2 : roomMembers (joinRoom rooms roomId socketId) roomId =
      (if (roomMembers rooms roomId).contains socketId then roomMembers rooms roomId
        else roomMembers rooms roomId ++ [socketId]) := by
    show (mapGet (mapSet rooms roomId
        (if (roomMembers rooms roomId).contains socketId then roomMembers rooms roomId
          else roomMembers rooms roomId ++ [socketId])) roomId).getD [] = _
    rw [mapGet_mapSet]
    rfl
  rw [h2]
  by_cases hc : (roomMembers rooms roomId).contains socketId = true
  · rw [if_pos hc]
    exact List.mem_of_elem_eq_true hc
  · rw [if_neg hc]
    exact List.mem_append_right _ (List.mem_singleton.mpr rfl)

/-! ### C10: unauthenticated sockets and the video room relay -/

/-- C10: a socket that never authenticated (its `userId` is unset: a failed
`authenticate` leaves it `none` and the presence map untouched) can still
join a video room — afterwards it is a member — and every `user_joined` or
`video_signal` event this produces is delivered to the other room members
carrying `none` (JavaScript `undefined`) as the sender identity; the signal
reaches every member except the sender. -/
theorem unauthenticated_socket_relays (rooms : List (String × List String))
    (activeUsers : List (String × String)) (roomId socketId sig tokenUid : String) :
    handleAuthenticate socketId none false tokenUid activeUsers = (none, activeUsers) ∧
    socketId ∈ roomMembers (handleJoinVideoSession socketId none roomId rooms).1 roomId ∧
    (∀ e ∈ (handleJoinVideoSession socketId none roomId rooms).2,
      e.2 = SockEvent.userJoined none) ∧
    (∀ e ∈ handleVideoSignal socketId none roomId sig
        (handleJoinVideoSession socketId none roomId rooms).1,
      e.2 = SockEvent.videoSignal sig none) ∧
    (∀ m ∈ roomMembers (handleJoinVideoSession socketId none roomId rooms).1 roomId,
      m ≠ socketId →
      (m, SockEvent.videoSignal sig none) ∈ handleVideoSignal socketId none roomId sig
        (handleJoinVideoSession socketId none roomId rooms).1) := by
  refine ⟨rfl, mem_joinRoom rooms roomId socketId, ?_, ?_, ?_⟩
  · intro e he
    rcases List.mem_map.mp he with ⟨m, _, rfl⟩
    rfl
  · intro e he
    rcases List.mem_map.mp he with ⟨m, _, rfl⟩
    rfl
  · intro m hm hne
    exact List.mem_map.mpr ⟨m, List.mem_filter.mpr ⟨hm, by simp [hne]⟩, rfl⟩

/-- C10 witness: the theorem at a concrete room with one other member. -/
theorem unauthenticated_socket_relays_w :
    handleAuthenticate "sck" none false "u7" [] = (none, []) ∧
    "sck" ∈ roomMembers (handleJoinVideoSession "sck" none "r9" []).1 "r9" ∧
    ("m2", SockEvent.videoSignal "offer" none) ∈ handleVideoSignal "sck" none "r9" "offer"
      (handleJoinVideoSession "sck" none "r9" [("r9", ["m2"])]).1 :=
  ⟨(unauthenticated_socket_relays [] [] "r9" "sck" "offer" "u7").1,
   (unauthenticated_socket_relays [] [] "r9" "sck" "offer" "u7").2.1,
   (unauthenticated_socket_relays [("r9", ["m2"])] [] "r9" "sck" "offer" "u7").2.2.2.2
     "m2" (by decide) (by decide)⟩


/-! ### C5: idempotent creation per appointment -/

/-- C5: creating a video session twice for the same appointment by the same
authorized caller is idempotent: the first call succeeds with some summary
(in particular a room id), and any second call — at any later time and with
any fresh ids on offer — returns exactly the same summary (hence the same
room id) and leaves the store exactly as the first call left it: the
existing session is returned unchanged and no second session is created for
the appointment. -/
theorem createVideoSession_idempotent (n1 : Nat) (f1 fr1 : String) (reqUser : UserRec)
    (aid : String) (st : VideoSt) (a : Appointment)
    (hne : aid ≠ "")
    (ha : findAppointment st.appointments aid = some a)
    (hauth : reqUser.id = a.patientId ∨ reqUser.id = a.therapistId)
    (hconf : a.status = ApptStatus.confirmed) :
    ∃ r st1, createVideoSession n1 f1 fr1 reqUser aid st = (Except.ok r, st1) ∧
      ∀ n2 f2 fr2, createVideoSession n2 f2 fr2 reqUser aid st1 = (Except.ok r, st1) := by
  have hne' : (aid == "") = false := by simp [hne]
  have hperm : (!(a.patientId == reqUser.id) && !(a.therapistId == reqUser.id)) = false := by
    rcases hauth with h | h <;> simp [h]
  cases hfs : findSessionByAppointment st.sessions aid with
  | some vs =>
    have hfs' : st.sessions.find? (fun s => s.appointmentId == aid) = some vs := hfs
    have hp : (vs.appointmentId == aid) = true := by simpa using List.find?_some hfs'
    by_cases hany : vs.participants.any (fun p => p.userId == reqUser.id) = true
    · refine ⟨⟨vs.roomId, vs.status, vs.participants.length⟩, st, ?_, ?_⟩
      · simp [createVideoSession, hne', ha, hperm, hconf, hfs, hany]
      · intro n2 f2 fr2
        simp [createVideoSession, hne', ha, hperm, hconf, hfs, hany]
    · refine ⟨⟨vs.roomId, vs.status,
          (vs.participants ++
            [({ userId := reqUser.id, joinedAt := n1 } : Participant)]).length⟩,
        ⟨saveSession
            ({ vs with participants :=
                vs.participants ++
                  [({ userId := reqUser.id, joinedAt := n1 } : Participant)] } :
              VideoSession)
            st.sessions,
          st.appointments⟩, ?_, ?_⟩
      · simp [createVideoSession, hne', ha, hperm, hconf, hfs, hany]
      · intro n2 f2 fr2
        have hsv := find?_saveSession (fun s => s.appointmentId == aid) vs
          ({ vs with participants :=
              vs.participants ++
                [({ userId := reqUser.id, joinedAt := n1 } : Participant)] } :
            VideoSession)
          rfl hp st.sessions hfs'
        have hany2 : (vs.participants ++
            [({ userId := reqUser.id, joinedAt := n1 } : Participant)]).any
              (fun p => p.userId == reqUser.id) = true := by
          simp
        simp [createVideoSession, findSessionByAppointment, hne', ha, hperm, hconf,
          hsv, hany2]
  | none =>
    refine ⟨⟨fr1, SessionStatus.waiting, 1⟩,
      ⟨saveSession
          ({ id := f1, patientId := a.patientId, therapistId := a.therapistId,
             appointmentId := aid, roomId := fr1,
             participants :=
               [({ userId := reqUser.id, joinedAt := n1 } : Participant)] } :
            VideoSession)
          (({ id := f1, patientId := a.patientId, therapistId := a.therapistId,
              appointmentId := aid, roomId := fr1 } : VideoSession) :: st.sessions),
        st.appointments⟩, ?_, ?_⟩
    · simp [createVideoSession, hne', ha, hperm, hconf, hfs]
    · intro n2 f2 fr2
      have hsv : (saveSession
          ({ id := f1, patientId := a.patientId, therapistId := a.therapistId,
             appointmentId := aid, roomId := fr1,
             participants :=
               [({ userId := reqUser.id, joinedAt := n1 } : Participant)] } :
            VideoSession)
          (({ id := f1, patientId := a.patientId, therapistId := a.therapistId,
              appointmentId := aid, roomId := fr1 } : VideoSession) :: st.sessions)).find?
            (fun s => s.appointmentId == aid) =
          some
            ({ id := f1, patientId := a.patientId, therapistId := a.therapistId,
               appointmentId := aid, roomId := fr1,
               participants :=
                 [({ userId := reqUser.id, joinedAt := n1 } : Participant)] } :
              VideoSession) := by
        simp [saveSession]
      have hany2 : ([({ userId := reqUser.id, joinedAt := n1 } : Participant)]).any
          (fun p => p.userId == reqUser.id) = true := by
        simp
      simp [createVideoSession, findSessionByAppointment, hne', ha, hperm, hconf,
        hsv, hany2]

/-- C5 witness: the idempotence theorem at a concrete confirmed video
appointment and an initially empty session store. -/
theorem createVideoSession_idempotent_w :
    ∃ r st1, createVideoSession 1 "s1" "r1" ⟨"p1", Role.patient⟩ "a1"
        ⟨[], [⟨"a1", "p1", "t1", ApptStatus.confirmed, SessType.video⟩]⟩ = (Except.ok r, st1) ∧
      ∀ n2 f2 fr2, createVideoSession n2 f2 fr2 ⟨"p1", Role.patient⟩ "a1" st1 =
        (Except.ok r, st1) :=
  createVideoSession_idempotent 1 "s1" "r1" ⟨"p1", Role.patient⟩ "a1"
    ⟨[], [⟨"a1", "p1", "t1", ApptStatus.confirmed, SessType.video⟩]⟩
    ⟨"a1", "p1", "t1", ApptStatus.confirmed, SessType.video⟩
    (by decide) (by rfl) (Or.inl rfl) rfl


theorem findIdx?_none_forall (p : Participant → Bool) :
    ∀ (l : List Participant) (i : Nat), List.findIdx? p l i = none → ∀ x ∈ l, p x = false := by
  intro l
  induction l with
  | nil => intro i _ x hx; exact absurd hx (by simp)
  | cons a as ih =>
    intro i h x hx
    rw [List.findIdx?_cons] at h
    by_cases hpa : p a = true
    · simp [hpa] at h
    · rcases List.mem_cons.mp hx with rfl | hx'
      · exact Bool.eq_false_iff.mpr hpa
      · exact ih (i + 1) (by simpa [hpa] using h) x hx'

/-! ### C9: participant bookkeeping on join and createOrJoin -/

/-- C9 counterexample: `createVideoSession` — the createOrJoin entry point —
does NOT refresh `joinedAt` for an already-registered participant.  Here
patient `p1` already has a participant entry with `joinedAt = 5`; a
createOrJoin call at time 99 succeeds and leaves the entry (and everything
else) completely unchanged, contradicting the claim that a createOrJoin by
an existing participant updates that entry's `joinedAt` to the current
time. -/
theorem createVideoSession_no_refresh_cex :
    createVideoSession 99 "sX" "rX" ⟨"p1", Role.patient⟩ "a1"
      ⟨[{ id := "s1", patientId := "p1", therapistId := "t1", appointmentId := "a1",
          roomId := "r1", participants := [{ userId := "p1", joinedAt := 5 }] }],
        [⟨"a1", "p1", "t1", ApptStatus.confirmed, SessType.video⟩]⟩ =
    (Except.ok ⟨"r1", SessionStatus.waiting, 1⟩,
      ⟨[{ id := "s1", patientId := "p1", therapistId := "t1", appointmentId := "a1",
          roomId := "r1", participants := [{ userId := "p1", joinedAt := 5 }] }],
        [⟨"a1", "p1", "t1", ApptStatus.confirmed, SessType.video⟩]⟩) := by
  rfl

/-- C9 (amended): `joinVideoSession` by a userId that already has a
participant entry at index `i` refreshes that entry's `joinedAt` to the
current time in place — the participants' userIds are unchanged (so no
second entry appears and a duplicate-free list stays duplicate-free), and a
join by a genuinely new userId appends one entry whose userId was not
present, preserving duplicate-freedom; `createVideoSession` by an existing
participant returns the session's summary and leaves the store entirely
unchanged (it does not refresh `joinedAt`). -/
theorem joinVideoSession_refresh_in_place :
    (∀ (now : Nat) (reqUser : UserRec) (roomId : String) (st : VideoSt) (vs : VideoSession),
      findSessionByRoom st.sessions roomId = some vs →
      (reqUser.id = vs.patientId ∨ reqUser.id = vs.therapistId) →
      ((∀ i, vs.participants.findIdx? (fun p => p.userId == reqUser.id) = some i →
          joinVideoSession now reqUser roomId st =
            (Except.ok ⟨vs.roomId, vs.status, vs.participants.length⟩,
              ⟨saveSession
                  ({ vs with participants :=
                      updateAt i (fun p => { p with joinedAt := now }) vs.participants } :
                    VideoSession)
                  st.sessions,
                st.appointments⟩) ∧
          (updateAt i (fun p => { p with joinedAt := now }) vs.participants).map
              (fun p => p.userId) = vs.participants.map (fun p => p.userId) ∧
          (updateAt i (fun p => { p with joinedAt := now }) vs.participants)[i]? =
            vs.participants[i]?.map (fun p => { p with joinedAt := now })) ∧
        (vs.participants.findIdx? (fun p => p.userId == reqUser.id) = none →
          (vs.participants.map (fun p => p.userId)).Nodup →
          ((vs.participants ++
              [({ userId := reqUser.id, joinedAt := now } : Participant)]).map
            (fun p => p.userId)).Nodup))) ∧
    (∀ (now : Nat) (fid frid aid : String) (reqUser : UserRec) (st : VideoSt)
        (a : Appointment) (vs : VideoSession),
      aid ≠ "" →
      findAppointment st.appointments aid = some a →
      (reqUser.id = a.patientId ∨ reqUser.id = a.therapistId) →
      a.status = ApptStatus.confirmed →
      findSessionByAppointment st.sessions aid = some vs →
      vs.participants.any (fun p => p.userId == reqUser.id) = true →
      createVideoSession now fid frid reqUser aid st =
        (Except.ok ⟨vs.roomId, vs.status, vs.participants.length⟩, st)) := by
  constructor
  · intro now reqUser roomId st vs hfind hauth
    have hperm : (!(vs.patientId == reqUser.id) && !(vs.therapistId == reqUser.id)) = false := by
      rcases hauth with h | h <;> simp [h]
    constructor
    · intro i hidx
      refine ⟨?_, ?_, ?_⟩
      · simp [joinVideoSession, hfind, hperm, hidx, updateAt_length]
      · exact updateAt_map (fun p => { p with joinedAt := now })
          (fun p => p.userId) (fun p => rfl) i vs.participants
      · exact updateAt_getElem? _ i vs.participants
    · intro hidx hnd
      have hnotin : reqUser.id ∉ vs.participants.map (fun p => p.userId) := by
        intro hmem
        rcases List.mem_map.mp hmem with ⟨q, hq, hqe⟩
        have hfalse : (q.userId == reqUser.id) = false :=
          findIdx?_none_forall (fun p => p.userId == reqUser.id)
            vs.participants 0 hidx q hq
        rw [hqe] at hfalse
        simp at hfalse
      rw [List.map_append]
      refine List.Nodup.append hnd (List.nodup_singleton _) ?_
      intro x hx hx'
      simp only [List.map_cons, List.map_nil, List.mem_singleton] at hx'
      subst hx'
      exact hnotin hx
  · intro now fid frid aid reqUser st a vs hne ha hauth hconf hfs hany
    have hne' : (aid == "") = false := by simp [hne]
    have hperm : (!(a.patientId == reqUser.id) && !(a.therapistId == reqUser.id)) = false := by
      rcases hauth with h | h <;> simp [h]
    simp [createVideoSession, hne', ha, hperm, hconf, hfs, hany]

/-- C9 witness: a rejoin via `joinVideoSession` at time 99 refreshes the
stored entry's `joinedAt` from 5 to 99 without adding an entry, while a
createOrJoin by the same existing participant leaves the store unchanged. -/
theorem joinVideoSession_refresh_in_place_w :
    joinVideoSession 99 ⟨"p1", Role.patient⟩ "r1"
        ⟨[{ id := "s1", patientId := "p1", therapistId := "t1", appointmentId := "a1",
            roomId := "r1", participants := [{ userId := "p1", joinedAt := 5 }] }],
          [⟨"a1", "p1", "t1", ApptStatus.confirmed, SessType.video⟩]⟩ =
      (Except.ok ⟨"r1", SessionStatus.waiting, 1⟩,
        ⟨[{ id := "s1", patientId := "p1", therapistId := "t1", appointmentId := "a1",
            roomId := "r1", participants := [{ userId := "p1", joinedAt := 99 }] }],
          [⟨"a1", "p1", "t1", ApptStatus.confirmed, SessType.video⟩]⟩) ∧
    createVideoSession 99 "sX" "rX" ⟨"p1", Role.patient⟩ "a1"
        ⟨[{ id := "s1", patientId := "p1", therapistId := "t1", appointmentId := "a1",
            roomId := "r1", participants := [{ userId := "p1", joinedAt := 5 }] }],
          [⟨"a1", "p1", "t1", ApptStatus.confirmed, SessType.video⟩]⟩ =
      (Except.ok ⟨"r1", SessionStatus.waiting, 1⟩,
        ⟨[{ id := "s1", patientId := "p1", therapistId := "t1", appointmentId := "a1",
            roomId := "r1", participants := [{ userId := "p1", joinedAt := 5 }] }],
          [⟨"a1", "p1", "t1", ApptStatus.confirmed, SessType.video⟩]⟩) :=
  ⟨((joinVideoSession_refresh_in_place.1 99 ⟨"p1", Role.patient⟩ "r1"
      ⟨[{ id := "s1", patientId := "p1", therapistId := "t1", appointmentId := "a1",
          roomId := "r1", participants := [{ userId := "p1", joinedAt := 5 }] }],
        [⟨"a1", "p1", "t1", ApptStatus.confirmed, SessType.video⟩]⟩
      { id := "s1", patientId := "p1", therapistId := "t1", appointmentId := "a1",
        roomId := "r1", participants := [{ userId := "p1", joinedAt := 5 }] }
      rfl (Or.inl rfl)).1 0 rfl).1,
   joinVideoSession_refresh_in_place.2 99 "sX" "rX" "a1" ⟨"p1", Role.patient⟩
     ⟨[{ id := "s1", patientId := "p1", therapistId := "t1", appointmentId := "a1",
         roomId := "r1", participants := [{ userId := "p1", joinedAt := 5 }] }],
       [⟨"a1", "p1", "t1", ApptStatus.confirmed, SessType.video⟩]⟩
     ⟨"a1", "p1", "t1", ApptStatus.confirmed, SessType.video⟩
     { id := "s1", patientId := "p1", therapistId := "t1", appointmentId := "a1",
       roomId := "r1", participants := [{ userId := "p1", joinedAt := 5 }] }
     (by decide) rfl (Or.inl rfl) rfl rfl rfl⟩


/-! ### C8: offline receiver — persist, read later, mark read -/

/-- C8: patient `pid` and therapist `tid` share one appointment.  Sending
"hello" from the patient persists the message with the symmetric (sorted,
underscore-joined) conversation id and no error — presence of the receiver is
never consulted.  When the therapist later fetches the conversation, the
returned snapshot shows the message still unread; after the therapist's
`markAsRead`, the stored message has `isRead = true` (the fetch itself
already marked it, and `markAsRead` is an idempotent no-op on it). -/
theorem offline_message_persist_read_flow (pid tid apptId mid : String)
    (now1 now2 now3 : Nat) (hpt : pid ≠ tid) (htne : tid ≠ "") :
    sendMessage now1 mid ⟨pid, Role.patient⟩ tid "hello" "text"
        ⟨[⟨pid, Role.patient⟩, ⟨tid, Role.therapist⟩],
          [⟨apptId, pid, tid, ApptStatus.confirmed, SessType.video⟩], []⟩ =
      (Except.ok
          ({ id := mid, senderId := pid, receiverId := tid, message := "hello",
             createdAt := now1, conversationId := deriveConversationId pid tid } : ChatMsg),
        ⟨[⟨pid, Role.patient⟩, ⟨tid, Role.therapist⟩],
          [⟨apptId, pid, tid, ApptStatus.confirmed, SessType.video⟩],
          [{ id := mid, senderId := pid, receiverId := tid, message := "hello",
             createdAt := now1, conversationId := deriveConversationId pid tid }]⟩) ∧
    getConversation now2 ⟨tid, Role.therapist⟩ pid 50
        ⟨[⟨pid, Role.patient⟩, ⟨tid, Role.therapist⟩],
          [⟨apptId, pid, tid, ApptStatus.confirmed, SessType.video⟩],
          [{ id := mid, senderId := pid, receiverId := tid, message := "hello",
             createdAt := now1, conversationId := deriveConversationId pid tid }]⟩ =
      (Except.ok
          [{ id := mid, senderId := pid, receiverId := tid, message := "hello",
             createdAt := now1, conversationId := deriveConversationId pid tid }],
        ⟨[⟨pid, Role.patient⟩, ⟨tid, Role.therapist⟩],
          [⟨apptId, pid, tid, ApptStatus.confirmed, SessType.video⟩],
          [{ id := mid, senderId := pid, receiverId := tid, message := "hello",
             isRead := true, readAt := some now2,
             createdAt := now1, conversationId := deriveConversationId pid tid }]⟩) ∧
    markAsRead now3 ⟨tid, Role.therapist⟩ (deriveConversationId pid tid)
        ⟨[⟨pid, Role.patient⟩, ⟨tid, Role.therapist⟩],
          [⟨apptId, pid, tid, ApptStatus.confirmed, SessType.video⟩],
          [{ id := mid, senderId := pid, receiverId := tid, message := "hello",
             isRead := true, readAt := some now2,
             createdAt := now1, conversationId := deriveConversationId pid tid }]⟩ =
      (Except.ok (),
        ⟨[⟨pid, Role.patient⟩, ⟨tid, Role.therapist⟩],
          [⟨apptId, pid, tid, ApptStatus.confirmed, SessType.video⟩],
          [{ id := mid, senderId := pid, receiverId := tid, message := "hello",
             isRead := true, readAt := some now2,
             createdAt := now1, conversationId := deriveConversationId pid tid }]⟩) ∧
    ({ id := mid, senderId := pid, receiverId := tid, message := "hello",
       createdAt := now1, conversationId := deriveConversationId pid tid } : ChatMsg).isRead
      = false ∧
    ({ id := mid, senderId := pid, receiverId := tid, message := "hello",
       isRead := true, readAt := some now2,
       createdAt := now1, conversationId := deriveConversationId pid tid } : ChatMsg).isRead
      = true := by
  have h1 : (pid == tid) = false := by simp [hpt]
  have h2 : (tid == pid) = false := by simp [Ne.symm hpt]
  have h3 : (tid == "") = false := by simp [htne]
  have h4 : ¬ (("hello" : String).length > 1000) := by decide
  have h5 : (("hello" : String) == "") = false := by rfl
  have hcomm := deriveConversationId_comm pid tid
  refine ⟨?_, ?_, ?_, rfl, rfl⟩
  · simp [sendMessage, findUser, checkTherapeuticRelationship, List.find?_cons,
      h1, h2, h3, h4, h5]
  · simp [getConversation, checkTherapeuticRelationship, findUser, List.find?_cons,
      h1, h2, markConversationRead, sortByCreatedDesc, insertByCreatedDesc, hcomm]
  · simp [markAsRead, markConversationRead]

/-- C8 witness: the scenario at concrete identities and times. -/
theorem offline_message_persist_read_flow_w :
    getConversation 2 ⟨"t1", Role.therapist⟩ "p1" 50
        ⟨[⟨"p1", Role.patient⟩, ⟨"t1", Role.therapist⟩],
          [⟨"a1", "p1", "t1", ApptStatus.confirmed, SessType.video⟩],
          [{ id := "m1", senderId := "p1", receiverId := "t1", message := "hello",
             createdAt := 1, conversationId := deriveConversationId "p1" "t1" }]⟩ =
      (Except.ok
          [{ id := "m1", senderId := "p1", receiverId := "t1", message := "hello",
             createdAt := 1, conversationId := deriveConversationId "p1" "t1" }],
        ⟨[⟨"p1", Role.patient⟩, ⟨"t1", Role.therapist⟩],
          [⟨"a1", "p1", "t1", ApptStatus.confirmed, SessType.video⟩],
          [{ id := "m1", senderId := "p1", receiverId := "t1", message := "hello",
             isRead := true, readAt := some 2,
             createdAt := 1, conversationId := deriveConversationId "p1" "t1" }]⟩) ∧
    ({ id := "m1", senderId := "p1", receiverId := "t1", message := "hello",
       createdAt := 1, conversationId := deriveConversationId "p1" "t1" } : ChatMsg).isRead
      = false :=
  ⟨(offline_message_persist_read_flow "p1" "t1" "a1" "m1" 1 2 3
      (by decide) (by decide)).2.1,
   (offline_message_persist_read_flow "p1" "t1" "a1" "m1" 1 2 3
      (by decide) (by decide)).2.2.2.1⟩

end Bolt28
